import Mathlib

/-!
Verification development for the dishly application (src/app.py).

The core logic embedded here, translated from the source:
* `CalorieCalculator` — input validation, unit conversion, Mifflin-St Jeor
  BMR and TDEE (lines 8-66 of app.py);
* `extract_calories` — lenient calorie extraction (lines 121-144);
* `get_macro_value` — lenient macro-gram extraction (lines 403-415);
* the macro display rule (lines 422-424);
* the cooking-instruction field resolution (lines 545-561);
* the cooking-instruction splitter (lines 565-571).

Python floats are modelled as exact rationals (`ℚ`), Python ints as `ℤ`;
`raise ValueError(msg)` is modelled as `Except.error msg`.  String
operations (`lower`, `strip`, the regexes) are modelled character by
character over ASCII, matching Python semantics on the ASCII strings the
dataset and the claims use.
-/

namespace Dishly

/-! ### CalorieCalculator (app.py lines 8-66) -/

def _POUNDS_TO_KG_FACTOR : ℚ := 0.453592

def _INCHES_TO_CM_FACTOR : ℚ := 2.54

def _FEET_TO_INCHES_FACTOR : ℤ := 12

def _ACTIVITY_MULTIPLIERS : List (String × ℚ) :=
  [("sedentary", 1.2), ("light", 1.375), ("moderate", 1.55),
   ("active", 1.725), ("extra_active", 1.9)]

def _VALID_SEX_OPTIONS : List String := ["male", "female"]

/-- Dictionary lookup in `_ACTIVITY_MULTIPLIERS`; `none` models `KeyError`
membership failure (`processed_activity_level not in self._ACTIVITY_MULTIPLIERS`). -/
def activityMultiplier (k : String) : Option ℚ :=
  (_ACTIVITY_MULTIPLIERS.find? (fun p => p.1 = k)).map Prod.snd

/-- ASCII lower-casing of one character, as Python `str.lower` acts on ASCII. -/
def pyCharLower (c : Char) : Char :=
  if 'A' ≤ c ∧ c ≤ 'Z' then Char.ofNat (c.toNat + 32) else c

/-- Python `str.lower()` restricted to ASCII strings. -/
def pyLower (s : String) : String := ⟨s.data.map pyCharLower⟩

/-- State stored by a successfully constructed `CalorieCalculator`:
converted metric weight and height, age, and the lower-cased sex and
activity level (app.py lines 42-49). -/
structure CalorieCalculator where
  weight_kg : ℚ
  height_cm : ℚ
  age_years : ℤ
  sex : String
  activity_level : String
deriving DecidableEq

/-- Constructor `CalorieCalculator.__init__` (app.py lines 22-49).  The
`isinstance` checks hold by typing in this embedding; the value checks,
their order, and the error messages are translated directly.  The string
interpolations of the source are evaluated: `_FEET_TO_INCHES_FACTOR - 1 = 11`
and the joined option lists. -/
def mkCalorieCalculator (weight_lbs : ℚ) (height_ft height_in age_years : ℤ)
    (sex activity_level : String) : Except String CalorieCalculator :=
  if ¬ weight_lbs > 0 then .error "Weight must be a positive number."
  else if ¬ height_ft ≥ 0 then .error "Height (feet) must be a non-negative integer."
  else if ¬ (0 ≤ height_in ∧ height_in < _FEET_TO_INCHES_FACTOR) then
    .error "Height (inches) must be an integer between 0 and 11."
  else if ¬ age_years > 0 then .error "Age must be a positive integer."
  else
    let processed_sex := pyLower sex
    if ¬ processed_sex ∈ _VALID_SEX_OPTIONS then
      .error "Invalid sex. Choose from: male, female."
    else
      let processed_activity_level := pyLower activity_level
      if (activityMultiplier processed_activity_level).isNone then
        .error "Invalid activity level. Choose from: sedentary, light, moderate, active, extra_active."
      else
        .ok { weight_kg := weight_lbs * _POUNDS_TO_KG_FACTOR
              height_cm := ((height_ft * _FEET_TO_INCHES_FACTOR + height_in : ℤ) : ℚ) * _INCHES_TO_CM_FACTOR
              age_years := age_years
              sex := processed_sex
              activity_level := processed_activity_level }

/-- Method `_calculate_bmr` (app.py lines 51-57). -/
def _calculate_bmr (c : CalorieCalculator) : ℚ :=
  if c.sex = "male" then
    10 * c.weight_kg + 6.25 * c.height_cm - 5 * (c.age_years : ℚ) + 5
  else
    10 * c.weight_kg + 6.25 * c.height_cm - 5 * (c.age_years : ℚ) - 161

/-- Method `get_maintenance_calories` (app.py lines 59-66).  The `getD 0`
never fires on a constructed instance, whose activity level is validated. -/
def get_maintenance_calories (c : CalorieCalculator) : ℚ :=
  _calculate_bmr c * (activityMultiplier c.activity_level).getD 0

deriving instance DecidableEq for Except

/-! ### Python value embedding for the dish-record normalizer

A loosely-typed Python value as it occurs in a dish record: `none` covers
both an explicit JSON null and the `None` returned by `dict.get` for an
absent key. -/

inductive PyVal where
  | none
  | int (n : ℤ)
  | float (q : ℚ)
  | str (s : String)
deriving DecidableEq

/-- ASCII whitespace, the characters matched by Python `str.strip()` and the
regex class `\s` on ASCII text. -/
def isPySpace (c : Char) : Bool :=
  c = ' ' || c = '\t' || c = '\n' || c = '\r' || c = '\x0b' || c = '\x0c'

/-- Python `str.strip()` on a character list. -/
def pyStripChars (l : List Char) : List Char :=
  ((l.dropWhile isPySpace).reverse.dropWhile isPySpace).reverse

/-- Python `str.strip()`. -/
def pyStrip (s : String) : String := ⟨pyStripChars s.data⟩

/-! ### extract_calories (app.py lines 121-144) -/

/-- Numeric value of a list of ASCII digit characters read in base 10. -/
def digitsVal (l : List Char) : ℕ :=
  l.foldl (fun a c => 10 * a + (c.toNat - 48)) 0

/-- Rational value of a decimal with integer part `a`, fractional digits of
value `b` and length `k`: `a + b / 10^k`. -/
def decVal (a b k : ℕ) : ℚ := (a : ℚ) + (b : ℚ) / (10 : ℚ) ^ k

/-- First match of the regex `\d+\.?\d*` in a character list, as
(integer-part value, fractional-part value, fractional-part length): the scan
stops at the first digit; the match takes the maximal digit run, then an
optional decimal point followed by the next maximal digit run.  A shorter
match is never forced by backtracking because nothing follows the pattern. -/
def firstNumber : List Char → Option (ℕ × ℕ × ℕ)
  | [] => Option.none
  | c :: rest =>
    if c.isDigit then
      let d1 := (c :: rest).takeWhile Char.isDigit
      let r1 := (c :: rest).dropWhile Char.isDigit
      match r1 with
      | '.' :: r2 =>
        let d2 := r2.takeWhile Char.isDigit
        Option.some (digitsVal d1, digitsVal d2, d2.length)
      | _ => Option.some (digitsVal d1, 0, 0)
    else firstNumber rest

/-- Function `extract_calories` (app.py lines 121-144): `None` gives `0`,
numbers are cast to float, and a string is searched with
`re.findall(r'\d+\.?\d*', s)`, taking the first match as a float; `0` when
nothing matches.  The result type `ℚ` identifies the Python failure value
`int 0` with `0.0`; `float` of a matched digit run never raises, so the
`except` clause of the source is unreachable. -/
def extract_calories : PyVal → ℚ
  | .none => 0
  | .int n => (n : ℤ)
  | .float q => q
  | .str s =>
    match firstNumber s.data with
    | Option.some (a, b, k) => decVal a b k
    | Option.none => 0

/-! ### get_macro_value (app.py lines 403-415) -/

/-- Leading sign of a float literal: negativity plus remaining characters. -/
def splitSign : List Char → Bool × List Char
  | '-' :: r => (true, r)
  | '+' :: r => (false, r)
  | l => (false, l)

/-- Components of a parsed Python float literal
`[sign] (d+ [. d*] | . d+) [(e|E) [sign] d+]`. -/
structure FloatParts where
  neg : Bool
  ipart : ℕ
  fval : ℕ
  flen : ℕ
  eneg : Bool
  exp : ℕ
deriving DecidableEq

/-- Rational value of parsed float components. -/
def FloatParts.val (p : FloatParts) : ℚ :=
  let m : ℚ := (p.ipart : ℚ) + (p.fval : ℚ) / (10 : ℚ) ^ p.flen
  let sm : ℚ := if p.neg then -m else m
  if p.eneg then sm / (10 : ℚ) ^ p.exp else sm * (10 : ℚ) ^ p.exp

/-- Exponent suffix of a float literal, after `e`/`E`. -/
def parseExp (p : Bool × ℕ × ℕ × ℕ) (t : List Char) : Option FloatParts :=
  let (eneg, t1) := splitSign t
  let ed := t1.takeWhile Char.isDigit
  if ed = [] ∨ t1.dropWhile Char.isDigit ≠ [] then Option.none
  else Option.some ⟨p.1, p.2.1, p.2.2.1, p.2.2.2, eneg, digitsVal ed⟩

/-- Structural parse of a Python float literal (whitespace already
stripped).  `Option.none` models `ValueError`.  The special forms
`inf`/`infinity`/`nan` and digit-group underscores have no counterpart in
`ℚ` and do not occur in the claims' inputs; they are not modelled. -/
def pyFloatParse (l : List Char) : Option FloatParts :=
  let (neg, l1) := splitSign l
  let d1 := l1.takeWhile Char.isDigit
  let r1 := l1.dropWhile Char.isDigit
  let (d2, r2) :=
    match r1 with
    | '.' :: t => (t.takeWhile Char.isDigit, t.dropWhile Char.isDigit)
    | _ => (([] : List Char), r1)
  if d1 = [] ∧ d2 = [] then Option.none
  else
    let parts : Bool × ℕ × ℕ × ℕ := (neg, digitsVal d1, digitsVal d2, d2.length)
    match r2 with
    | [] => Option.some ⟨neg, digitsVal d1, digitsVal d2, d2.length, false, 0⟩
    | 'e' :: t => parseExp parts t
    | 'E' :: t => parseExp parts t
    | _ => Option.none

/-- Python `float(s)` on its decimal forms; surrounding whitespace is
allowed by `float`. -/
def pyFloat? (s : String) : Option ℚ :=
  (pyFloatParse (pyStripChars s.data)).map FloatParts.val

/-- Cleaning stage of `get_macro_value`: `str(value).strip().lower()`. -/
def macroClean (s : String) : String := pyLower (pyStrip s)

/-- Unit-suffix stage of `get_macro_value` (app.py lines 410-412): when the
cleaned string ends with "g", exactly one trailing "g" is removed
(`value_str[:-1]`) and the remainder stripped again. -/
def stripUnitG (s : String) : String :=
  if s.data.getLast? = Option.some 'g' then pyStrip ⟨s.data.dropLast⟩ else s

/-- String pipeline of `get_macro_value` applied to `str(value_input)`. -/
def macroFromString (s : String) : ℚ :=
  let value_str := macroClean s
  if value_str = "n/a" ∨ value_str = "" then 0
  else (pyFloat? (stripUnitG value_str)).getD 0

/-- Helper `get_macro_value` (app.py lines 403-415).  `None` gives `0.0`,
other values go through `str(...)`: for an int, `str` is its decimal
representation; for a finite float, `str` produces a decimal that `float`
parses back to the same value while the `n/a`/empty/suffix tests all fail on
it, so the float branch is its identity and is embedded directly. -/
def get_macro_value : PyVal → ℚ
  | .none => 0
  | .int n => macroFromString (toString n)
  | .float q => q
  | .str s => macroFromString s

/-! ### Macro display rule (app.py lines 422-424) -/

/-- Test `isinstance(raw, (int, float)) and raw == 0` of the display rule. -/
def isNumericZero : PyVal → Bool
  | .int n => n = 0
  | .float q => q = 0
  | _ => false

/-- Rounding of Python's format `f"{v:.0f}"`: round half to even. -/
def roundHalfEven (q : ℚ) : ℤ :=
  if q - ⌊q⌋ < 1/2 then ⌊q⌋
  else if 1/2 < q - ⌊q⌋ then ⌊q⌋ + 1
  else if 2 ∣ ⌊q⌋ then ⌊q⌋ else ⌊q⌋ + 1

/-- Python `f"{v:.0f}g"`. -/
def formatG (q : ℚ) : String := toString (roundHalfEven q) ++ "g"

/-- Display rule for one macro field (app.py lines 422-424), e.g.
`protein_display`: the formatted coerced value when it is positive or the
raw value is an explicit numeric equal to `0`, and "N/A" otherwise.  `raw`
is `macros_data.get('protein_g')`, which yields Python `None` both for an
absent key and for an explicit null. -/
def macroDisplay (raw : PyVal) : String :=
  let v := get_macro_value raw
  if v > 0 ∨ isNumericZero raw then formatG v else "N/A"

/-! ### Cooking-instruction field resolution (app.py lines 545-561) -/

/-- Candidate instruction field names, in priority order (app.py lines 545-552). -/
def instruction_field_options : List String :=
  ["cooking_instructions", "cookingInstructions", "instructions",
   "cooking_steps", "recipe_steps", "preparation"]

/-- Field lookup in a dish record, modelled as an association list;
`Option.none` when the field name is absent.  A present field may still hold
`PyVal.none` (an explicit null). -/
def lookupField (record : List (String × PyVal)) (f : String) : Option PyVal :=
  (record.find? (fun p => p.1 = f)).map Prod.snd

/-- Test `field in record and record[field] is not None` of app.py line 558. -/
def presentNonNull (record : List (String × PyVal)) (f : String) : Bool :=
  match lookupField record f with
  | Option.some v => decide (v ≠ PyVal.none)
  | Option.none => false

/-- Loop of app.py lines 557-561, over an arbitrary candidate list: the
first field present with a non-null value is returned with its value; a
field that is absent, or present holding null, is skipped. -/
def resolveLoop (record : List (String × PyVal)) : List String → Option (String × PyVal)
  | [] => Option.none
  | f :: fs =>
    match lookupField record f with
    | Option.some v =>
      if v = PyVal.none then resolveLoop record fs else Option.some (f, v)
    | Option.none => resolveLoop record fs

/-- Resolution of the cooking-instructions field (app.py lines 554-561):
the first candidate present with a non-null value together with its name;
`Option.none` models the "No cooking instructions available" branch. -/
def resolve_instructions (record : List (String × PyVal)) : Option (String × PyVal) :=
  resolveLoop record instruction_field_options

/-! ### Instruction splitting (app.py lines 565-571) -/

/-- Character class `[A-Z0-9]` of the splitting regex. -/
def isUpperOrDigit (c : Char) : Bool :=
  ('A' ≤ c && c ≤ 'Z') || ('0' ≤ c && c ≤ '9')

/-- Length of the maximal whitespace run at the head of the list. -/
def wsRun (l : List Char) : ℕ := (l.takeWhile isPySpace).length

/-- Match length of the first alternative `[,\n\.]\s*(?=[A-Z0-9])` at the
head of `l`: a comma, newline or period, then the maximal whitespace run,
with a lookahead requiring an uppercase letter or digit.  Backtracking
cannot shorten the run: a shorter run puts a whitespace character under the
lookahead, which fails. -/
def sepAlt1 (l : List Char) : Option ℕ :=
  match l with
  | c :: rest =>
    if c = ',' || c = '\n' || c = '.' then
      let k := wsRun rest
      match rest.drop k with
      | d :: _ => if isUpperOrDigit d then Option.some (1 + k) else Option.none
      | [] => Option.none
    else Option.none
  | [] => Option.none

/-- Match length of the second alternative `(?<=\.)\s+`: a nonempty
whitespace run preceded by a period; `prev` is the character before the
current position in the original string. -/
def sepAlt2 (prev : Option Char) (l : List Char) : Option ℕ :=
  if prev = Option.some '.' then
    let k := wsRun l
    if k = 0 then Option.none else Option.some k
  else Option.none

/-- Match length of the third alternative `\s*-\s*`: optional whitespace, a
hyphen, optional whitespace, all maximal. -/
def sepAlt3 (l : List Char) : Option ℕ :=
  let k := wsRun l
  match l.drop k with
  | '-' :: rest2 => Option.some (k + 1 + wsRun rest2)
  | _ => Option.none

/-- Ordered-alternative match of the separator regex
`[,\n\.]\s*(?=[A-Z0-9])|(?<=\.)\s+|\s*-\s*` at the current position. -/
def sepMatch (prev : Option Char) (l : List Char) : Option ℕ :=
  ((sepAlt1 l).orElse fun _ => (sepAlt2 prev l).orElse fun _ => sepAlt3 l)

/-- Splitting loop of `re.split` with the separator `sepMatch`: scan left to
right, emit the fragment collected so far at each non-overlapping leftmost
match and resume after it.  Every separator match consumes at least one
character, so `fuel := length` suffices; `acc` holds the current fragment
reversed; `prev` is the character preceding the current position, for the
lookbehind. -/
def splitLoop : ℕ → Option Char → List Char → List Char → List (List Char)
  | 0, _, acc, _ => [acc.reverse]
  | _ + 1, _, acc, [] => [acc.reverse]
  | fuel + 1, prev, acc, c :: rest =>
    match sepMatch prev (c :: rest) with
    | Option.some n =>
      acc.reverse :: splitLoop fuel ((c :: rest).get? (n - 1)) [] ((c :: rest).drop n)
    | Option.none => splitLoop fuel (Option.some c) (c :: acc) rest

/-- Python `re.split(r'[,\n\.]\s*(?=[A-Z0-9])|(?<=\.)\s+|\s*-\s*', s)`
(app.py line 569); the pattern has no capture group, so separators are
dropped. -/
def pyRegexSplit (s : String) : List String :=
  (splitLoop s.data.length Option.none [] s.data).map fun l => ⟨l⟩

/-- Construction of `instruction_list` from a string instructions value
(app.py lines 565-571): split, strip each fragment, drop the empty ones;
when that leaves nothing and the original string is longer than 20
characters, fall back to the whole stripped string as a single step. -/
def instruction_list (instructions : String) : List String :=
  let l := ((pyRegexSplit instructions).map pyStrip).filter (fun f => f ≠ "")
  if l = [] ∧ instructions.data.length > 20 then [pyStrip instructions] else l

/-! ## Theorems -/

/-- Helper: the digit scan of `extract_calories` finds nothing in a string
without ASCII digits. -/
theorem firstNumber_eq_none (l : List Char) (h : ∀ c ∈ l, c.isDigit = false) :
    firstNumber l = Option.none := by
  induction l with
  | nil => rfl
  | cons c rest ih =>
    have hc : c.isDigit = false := h c (List.mem_cons_self c rest)
    have hr : firstNumber rest = Option.none :=
      ih fun d hd => h d (List.mem_cons_of_mem c hd)
    simp [firstNumber, hc, hr]

/-- Helper: the value of a matched digit run is non-negative. -/
theorem decVal_nonneg (a b k : ℕ) : 0 ≤ decVal a b k := by
  unfold decVal
  positivity

/-- C2: for every input value, extract_calories never raises (it is total in
this embedding) and returns 0 for None, the float cast of a number, and for
a string the first digit run with an optional decimal point parsed as a
float, 0 when the string has no digits; in particular
extract_calories "150 calories" = 150, "150" = 150, 150 = 150, None = 0,
"abc" = 0. -/
theorem C2_extract_calories_spec :
    extract_calories PyVal.none = 0 ∧
    (∀ n : ℤ, extract_calories (PyVal.int n) = (n : ℚ)) ∧
    (∀ q : ℚ, extract_calories (PyVal.float q) = q) ∧
    (∀ s : String, extract_calories (PyVal.str s) =
        (firstNumber s.data).elim 0 (fun t => decVal t.1 t.2.1 t.2.2)) ∧
    (∀ s : String, (∀ c ∈ s.data, c.isDigit = false) →
        extract_calories (PyVal.str s) = 0) ∧
    extract_calories (PyVal.str "150 calories") = 150 ∧
    extract_calories (PyVal.str "150") = 150 ∧
    extract_calories (PyVal.int 150) = 150 ∧
    extract_calories (PyVal.str "abc") = 0 := by
  refine ⟨rfl, fun n => rfl, fun q => rfl, fun s => ?_, fun s h => ?_, ?_, ?_, ?_, ?_⟩
  · cases h : firstNumber s.data <;> simp [extract_calories, h]
  · simp [extract_calories, firstNumber_eq_none s.data h]
  · have h : firstNumber "150 calories".data = Option.some (150, 0, 0) := by decide
    simp [extract_calories, h, decVal]
  · have h : firstNumber "150".data = Option.some (150, 0, 0) := by decide
    simp [extract_calories, h, decVal]
  · norm_num [extract_calories]
  · have h : firstNumber "abc".data = Option.none := by decide
    simp [extract_calories, h]

/-- C2 witness: the no-digit clause applied to a concrete digit-free string. -/
theorem C2_extract_calories_spec_witness :
    extract_calories (PyVal.str "kcal unknown") = 0 :=
  C2_extract_calories_spec.2.2.2.2.1 "kcal unknown" (by decide)

/-- C9: on strings the extraction is non-negative (the digit-run pattern
matches no sign): "-50 calories" gives 50; with several numbers the leftmost
wins: "100 to 200 calories" gives 100; a numeric input keeps its sign:
extract_calories (-50) = -50. -/
theorem C9_sign_and_first_match :
    (∀ s : String, 0 ≤ extract_calories (PyVal.str s)) ∧
    extract_calories (PyVal.str "-50 calories") = 50 ∧
    extract_calories (PyVal.str "100 to 200 calories") = 100 ∧
    extract_calories (PyVal.int (-50)) = -50 := by
  refine ⟨fun s => ?_, ?_, ?_, ?_⟩
  · cases h : firstNumber s.data with
    | none => simp [extract_calories, h]
    | some t => simpa [extract_calories, h] using decVal_nonneg t.1 t.2.1 t.2.2
  · have h : firstNumber "-50 calories".data = Option.some (50, 0, 0) := by decide
    simp [extract_calories, h, decVal]
  · have h : firstNumber "100 to 200 calories".data = Option.some (100, 0, 0) := by decide
    simp [extract_calories, h, decVal]
  · norm_num [extract_calories]

/-- C4 counterexample: the splitter does not return the three claimed
sentence fragments with their trailing periods; the separator of the first
alternative consumes the period before " Add" and " Bake". -/
theorem C4_counterexample :
    instruction_list "Mix flour. Add eggs. Bake 20 min." ≠
      ["Mix flour.", "Add eggs.", "Bake 20 min."] := by decide

/-- C4 amended: splitting "Mix flour. Add eggs. Bake 20 min." returns
exactly ["Mix flour", "Add eggs", "Bake 20 min."]: three non-empty
whitespace-trimmed fragments in original order, but a period followed by
whitespace and an uppercase letter is consumed as part of the separator, so
the first two fragments lose their trailing period; only the final fragment
keeps it. -/
theorem C4_split_example :
    instruction_list "Mix flour. Add eggs. Bake 20 min." =
      ["Mix flour", "Add eggs", "Bake 20 min."] := by decide

/-- Helper: the string pipeline of `get_macro_value` when the cleaned string
is the sentinel or empty. -/
theorem macroFromString_sentinel (s t : String) (hc : macroClean s = t)
    (ht : t = "n/a" ∨ t = "") : macroFromString s = 0 := by
  simp only [macroFromString, hc]
  rw [if_pos ht]

/-- Helper: the string pipeline of `get_macro_value` when the float parse of
the suffix-stripped string succeeds. -/
theorem macroFromString_parse (s t : String) (p : FloatParts)
    (hc : macroClean s = t) (ht : ¬ (t = "n/a" ∨ t = ""))
    (hp : pyFloatParse (pyStripChars (stripUnitG t).data) = Option.some p) :
    macroFromString s = p.val := by
  simp only [macroFromString, hc]
  rw [if_neg ht]
  simp [pyFloat?, hp]

/-- Helper: the string pipeline of `get_macro_value` when the float parse of
the suffix-stripped string fails. -/
theorem macroFromString_parse_fail (s t : String) (hc : macroClean s = t)
    (ht : ¬ (t = "n/a" ∨ t = ""))
    (hp : pyFloatParse (pyStripChars (stripUnitG t).data) = Option.none) :
    macroFromString s = 0 := by
  simp only [macroFromString, hc]
  rw [if_neg ht]
  simp [pyFloat?, hp]

/-- C3: get_macro_value never raises (total in this embedding) and returns
0 for None; otherwise, after str conversion, stripping and lower-casing, 0
for "" or "n/a", else with one trailing "g" stripped the remainder parsed as
a float, 0 on parse failure; in particular "25g" gives 25, "N/A" gives 0 and
the explicit number 0 gives 0. -/
theorem C3_macro_value_spec :
    get_macro_value PyVal.none = 0 ∧
    (∀ n : ℤ, get_macro_value (PyVal.int n) = macroFromString (toString n)) ∧
    (∀ s : String, get_macro_value (PyVal.str s) =
        (if macroClean s = "n/a" ∨ macroClean s = "" then 0
         else (pyFloat? (stripUnitG (macroClean s))).getD 0)) ∧
    get_macro_value (PyVal.str "25g") = 25 ∧
    get_macro_value (PyVal.str "N/A") = 0 ∧
    get_macro_value (PyVal.int 0) = 0 := by
  refine ⟨rfl, fun n => rfl, fun s => rfl, ?_, ?_, ?_⟩
  · have h := macroFromString_parse "25g" "25g" ⟨false, 25, 0, 0, false, 0⟩
      (by decide) (by decide) (by decide)
    show macroFromString "25g" = 25
    rw [h]
    norm_num [FloatParts.val]
  · have h := macroFromString_sentinel "N/A" "n/a" (by decide) (Or.inl rfl)
    exact h
  · have ht : toString (0 : ℤ) = "0" := by decide
    have h := macroFromString_parse "0" "0" ⟨false, 0, 0, 0, false, 0⟩
      (by decide) (by decide) (by decide)
    show macroFromString (toString (0 : ℤ)) = 0
    rw [ht, h]
    norm_num [FloatParts.val]

/-- C10: the whole string is lower-cased before the suffix test, so "25G"
gives 25; exactly one trailing "g" is removed, so "25gg" fails the parse and
gives 0; the remainder is parsed with full float syntax including a sign, so
"-5g" gives -5. -/
theorem C10_macro_suffix_details :
    get_macro_value (PyVal.str "25G") = 25 ∧
    get_macro_value (PyVal.str "25gg") = 0 ∧
    get_macro_value (PyVal.str "-5g") = -5 := by
  refine ⟨?_, ?_, ?_⟩
  · have h := macroFromString_parse "25G" "25g" ⟨false, 25, 0, 0, false, 0⟩
      (by decide) (by decide) (by decide)
    show macroFromString "25G" = 25
    rw [h]
    norm_num [FloatParts.val]
  · exact macroFromString_parse_fail "25gg" "25gg" (by decide) (by decide) (by decide)
  · have h := macroFromString_parse "-5g" "-5g" ⟨true, 5, 0, 0, false, 0⟩
      (by decide) (by decide) (by decide)
    show macroFromString "-5g" = -5
    rw [h]
    norm_num [FloatParts.val]

/-- C5 counterexample: the raw string "0g" is parseable (its float parse
succeeds with value 0), yet the display is "N/A" — the code displays the
coerced value only when it is positive or the raw value is an explicit
numeric zero, so a parseable raw value is not always displayed. -/
theorem C5_counterexample :
    pyFloat? (stripUnitG (macroClean "0g")) = Option.some 0 ∧
    macroDisplay (PyVal.str "0g") = "N/A" := by
  constructor
  · have hp : pyFloatParse (pyStripChars (stripUnitG (macroClean "0g")).data) =
        Option.some ⟨false, 0, 0, 0, false, 0⟩ := by decide
    rw [pyFloat?, hp]
    norm_num [FloatParts.val]
  · have hv : get_macro_value (PyVal.str "0g") = 0 :=
      macroFromString_parse "0g" "0g" ⟨false, 0, 0, 0, false, 0⟩
        (by decide) (by decide) (by decide) |>.trans (by norm_num [FloatParts.val])
    simp only [macroDisplay, hv, isNumericZero]
    norm_num

/-- C5 amended: the display of a macro field is "N/A" exactly when the
coerced value is not positive and the raw value is not an explicit numeric
equal to 0; an explicit numeric 0 displays "0g"; a raw value whose coerced
value is positive displays that value.  (The original claim said every
parseable raw value is displayed; the code instead requires a positive
coerced value or an explicit numeric zero, see `C5_counterexample`.) -/
theorem C5_display_rule :
    (∀ raw : PyVal, ¬ (0 < get_macro_value raw ∨ isNumericZero raw = true) →
        macroDisplay raw = "N/A") ∧
    (∀ raw : PyVal, isNumericZero raw = true → macroDisplay raw = "0g") ∧
    (∀ raw : PyVal, 0 < get_macro_value raw →
        macroDisplay raw = formatG (get_macro_value raw)) := by
  have hfmt0 : formatG 0 = "0g" := by
    have hr : roundHalfEven 0 = 0 := by norm_num [roundHalfEven]
    rw [formatG, hr]
    decide
  refine ⟨fun raw h => ?_, fun raw h => ?_, fun raw h => ?_⟩
  · simp only [macroDisplay]
    rw [if_neg h]
  · cases raw with
    | none => simp [isNumericZero] at h
    | str s => simp [isNumericZero] at h
    | int n =>
      simp only [isNumericZero, decide_eq_true_eq] at h
      subst h
      have hv : get_macro_value (PyVal.int 0) = 0 := by
        have ht : toString (0 : ℤ) = "0" := by decide
        have h0 := macroFromString_parse "0" "0" ⟨false, 0, 0, 0, false, 0⟩
          (by decide) (by decide) (by decide)
        show macroFromString (toString (0 : ℤ)) = 0
        rw [ht, h0]
        norm_num [FloatParts.val]
      simp only [macroDisplay, hv]
      rw [if_pos (Or.inr (by decide)), hfmt0]
    | float q =>
      simp only [isNumericZero, decide_eq_true_eq] at h
      subst h
      have hv : get_macro_value (PyVal.float 0) = 0 := rfl
      simp only [macroDisplay, hv]
      rw [if_pos (Or.inr (by decide)), hfmt0]
  · simp only [macroDisplay]
    rw [if_pos (Or.inl h)]

/-- C5 witness: the amended rule applied at None, at the explicit numeric 0
and at a positive float. -/
theorem C5_display_rule_witness :
    macroDisplay PyVal.none = "N/A" ∧
    macroDisplay (PyVal.int 0) = "0g" ∧
    macroDisplay (PyVal.float 30) = formatG (get_macro_value (PyVal.float 30)) :=
  ⟨C5_display_rule.1 PyVal.none
      (by norm_num [get_macro_value, isNumericZero]),
   C5_display_rule.2.1 (PyVal.int 0) (by decide),
   C5_display_rule.2.2 (PyVal.float 30) (by norm_num [get_macro_value])⟩

/-- C1: for the profile weight_lbs=180, height_ft=5, height_in=10,
age_years=28, activity_level="moderate", construction succeeds for both
sexes storing weight_kg = 180 × 0.453592 (≈ 81.647) and
height_cm = 70 × 2.54 = 177.8, and get_maintenance_calories returns
BMR × 1.55 with BMR = 10·weight_kg + 6.25·height_cm − 5·28 + 5 (male,
≈ 1792.72, TDEE ≈ 2778.7) and − 161 instead of + 5 (female, ≈ 1626.72,
TDEE ≈ 2521.4); the approximate decimals of the claim are within the stated
rounding of the exact rationals. -/
theorem C1_concrete_profile :
    ∃ cm cf : CalorieCalculator,
      mkCalorieCalculator 180 5 10 28 "male" "moderate" = .ok cm ∧
      mkCalorieCalculator 180 5 10 28 "female" "moderate" = .ok cf ∧
      cm.weight_kg = 180 * 0.453592 ∧ |cm.weight_kg - 81.647| < 1/1000 ∧
      cm.height_cm = 70 * 2.54 ∧ cm.height_cm = 177.8 ∧
      _calculate_bmr cm = 10 * cm.weight_kg + 6.25 * cm.height_cm - 5 * 28 + 5 ∧
      |_calculate_bmr cm - 1792.72| < 1/100 ∧
      get_maintenance_calories cm = _calculate_bmr cm * 1.55 ∧
      |get_maintenance_calories cm - 2778.7| < 1/100 ∧
      cf.weight_kg = cm.weight_kg ∧ cf.height_cm = cm.height_cm ∧
      _calculate_bmr cf = 10 * cf.weight_kg + 6.25 * cf.height_cm - 5 * 28 - 161 ∧
      |_calculate_bmr cf - 1626.72| < 1/100 ∧
      get_maintenance_calories cf = _calculate_bmr cf * 1.55 ∧
      |get_maintenance_calories cf - 2521.4| < 1/100 := by
  have h1 : pyLower "male" = "male" := by decide
  have h1f : pyLower "female" = "female" := by decide
  have h2 : pyLower "moderate" = "moderate" := by decide
  have h3 : activityMultiplier "moderate" = some 1.55 := by
    simp [activityMultiplier, _ACTIVITY_MULTIPLIERS, List.find?]
  refine ⟨⟨81.64656, 177.8, 28, "male", "moderate"⟩,
    ⟨81.64656, 177.8, 28, "female", "moderate"⟩,
    ?_, ?_, ?_, ?_, ?_, ?_, ?_, ?_, ?_, ?_, ?_, ?_, ?_, ?_, ?_, ?_⟩
  · simp only [mkCalorieCalculator, h1, h2, h3]
    norm_num [_VALID_SEX_OPTIONS, _FEET_TO_INCHES_FACTOR,
      _POUNDS_TO_KG_FACTOR, _INCHES_TO_CM_FACTOR]
  · simp only [mkCalorieCalculator, h1f, h2, h3]
    norm_num [_VALID_SEX_OPTIONS, _FEET_TO_INCHES_FACTOR,
      _POUNDS_TO_KG_FACTOR, _INCHES_TO_CM_FACTOR]
  · norm_num [_POUNDS_TO_KG_FACTOR]
  · rw [abs_sub_lt_iff]; constructor <;> norm_num
  · norm_num [_INCHES_TO_CM_FACTOR]
  · norm_num
  · norm_num [_calculate_bmr]
  · rw [abs_sub_lt_iff]
    constructor <;> norm_num [_calculate_bmr]
  · simp [get_maintenance_calories, h3]
  · rw [abs_sub_lt_iff]
    constructor <;> norm_num [get_maintenance_calories, _calculate_bmr, h3]
  · norm_num
  · norm_num
  · norm_num [_calculate_bmr, (show ("female" : String) ≠ "male" by decide)]
  · rw [abs_sub_lt_iff]
    constructor <;>
      norm_num [_calculate_bmr, (show ("female" : String) ≠ "male" by decide)]
  · simp [get_maintenance_calories, h3]
  · rw [abs_sub_lt_iff]
    constructor <;>
      norm_num [get_maintenance_calories, _calculate_bmr, h3,
        (show ("female" : String) ≠ "male" by decide)]

/-- C6: construction validates weight, height-feet, height-inches, age, sex
and activity level in this fixed order, stopping at the first failure with
that check's message (so no instance exists on failure, modelled by
`Except.error`); at the boundary, height_in = 11 constructs successfully
while height_in = 12 and height_in = -1 fail the height-inches check. -/
theorem C6_validation_order :
    (∀ (w : ℚ) (hf hi a : ℤ) (s al : String), w ≤ 0 →
        mkCalorieCalculator w hf hi a s al =
          .error "Weight must be a positive number.") ∧
    (∀ (w : ℚ) (hf hi a : ℤ) (s al : String), 0 < w → hf < 0 →
        mkCalorieCalculator w hf hi a s al =
          .error "Height (feet) must be a non-negative integer.") ∧
    (∀ (w : ℚ) (hf hi a : ℤ) (s al : String), 0 < w → 0 ≤ hf →
        (hi < 0 ∨ 12 ≤ hi) →
        mkCalorieCalculator w hf hi a s al =
          .error "Height (inches) must be an integer between 0 and 11.") ∧
    (∀ (w : ℚ) (hf hi a : ℤ) (s al : String), 0 < w → 0 ≤ hf →
        0 ≤ hi → hi < 12 → a ≤ 0 →
        mkCalorieCalculator w hf hi a s al =
          .error "Age must be a positive integer.") ∧
    (∀ (w : ℚ) (hf hi a : ℤ) (s al : String), 0 < w → 0 ≤ hf →
        0 ≤ hi → hi < 12 → 0 < a → ¬ pyLower s ∈ _VALID_SEX_OPTIONS →
        mkCalorieCalculator w hf hi a s al =
          .error "Invalid sex. Choose from: male, female.") ∧
    (∀ (w : ℚ) (hf hi a : ℤ) (s al : String), 0 < w → 0 ≤ hf →
        0 ≤ hi → hi < 12 → 0 < a → pyLower s ∈ _VALID_SEX_OPTIONS →
        activityMultiplier (pyLower al) = Option.none →
        mkCalorieCalculator w hf hi a s al =
          .error "Invalid activity level. Choose from: sedentary, light, moderate, active, extra_active.") ∧
    (∃ c : CalorieCalculator,
        mkCalorieCalculator 180 5 11 28 "male" "moderate" = .ok c) ∧
    mkCalorieCalculator 180 5 12 28 "male" "moderate" =
      .error "Height (inches) must be an integer between 0 and 11." ∧
    mkCalorieCalculator 180 5 (-1) 28 "male" "moderate" =
      .error "Height (inches) must be an integer between 0 and 11." := by
  refine ⟨?_, ?_, ?_, ?_, ?_, ?_, ?_, ?_, ?_⟩
  · intro w hf hi a s al h
    simp only [mkCalorieCalculator]
    rw [if_pos (not_lt.mpr h)]
  · intro w hf hi a s al hw h
    simp only [mkCalorieCalculator]
    rw [if_neg (not_not_intro hw), if_pos (not_le.mpr h)]
  · intro w hf hi a s al hw hhf h
    have hcond : ¬ (0 ≤ hi ∧ hi < _FEET_TO_INCHES_FACTOR) := by
      rcases h with h | h
      · exact fun hc => absurd hc.1 (not_le.mpr h)
      · exact fun hc => absurd hc.2 (not_lt.mpr h)
    simp only [mkCalorieCalculator]
    rw [if_neg (not_not_intro hw), if_neg (not_not_intro hhf), if_pos hcond]
  · intro w hf hi a s al hw hhf hi0 hi12 h
    simp only [mkCalorieCalculator]
    rw [if_neg (not_not_intro hw), if_neg (not_not_intro hhf),
      if_neg (not_not_intro ⟨hi0, hi12⟩), if_pos (not_lt.mpr h)]
  · intro w hf hi a s al hw hhf hi0 hi12 ha h
    simp only [mkCalorieCalculator]
    rw [if_neg (not_not_intro hw), if_neg (not_not_intro hhf),
      if_neg (not_not_intro ⟨hi0, hi12⟩), if_neg (not_not_intro ha), if_pos h]
  · intro w hf hi a s al hw hhf hi0 hi12 ha hs hal
    simp only [mkCalorieCalculator]
    rw [if_neg (not_not_intro hw), if_neg (not_not_intro hhf),
      if_neg (not_not_intro ⟨hi0, hi12⟩), if_neg (not_not_intro ha),
      if_neg (not_not_intro hs)]
    simp [hal]
  · refine ⟨⟨81.64656, 71 * 2.54, 28, "male", "moderate"⟩, ?_⟩
    have h1 : pyLower "male" = "male" := by decide
    have h2 : pyLower "moderate" = "moderate" := by decide
    have h3 : activityMultiplier "moderate" = some 1.55 := by
      simp [activityMultiplier, _ACTIVITY_MULTIPLIERS, List.find?]
    simp only [mkCalorieCalculator, h1, h2, h3]
    norm_num [_VALID_SEX_OPTIONS, _FEET_TO_INCHES_FACTOR,
      _POUNDS_TO_KG_FACTOR, _INCHES_TO_CM_FACTOR]
  · norm_num [mkCalorieCalculator, _FEET_TO_INCHES_FACTOR]
  · norm_num [mkCalorieCalculator, _FEET_TO_INCHES_FACTOR]

/-- C6 witness: each validation clause applied at a concrete failing (or,
for the boundary, succeeding) profile. -/
theorem C6_validation_order_witness :
    mkCalorieCalculator (-1) 5 10 28 "male" "moderate" =
      .error "Weight must be a positive number." ∧
    mkCalorieCalculator 180 (-2) 10 28 "male" "moderate" =
      .error "Height (feet) must be a non-negative integer." ∧
    mkCalorieCalculator 180 5 12 28 "male" "moderate" =
      .error "Height (inches) must be an integer between 0 and 11." ∧
    mkCalorieCalculator 180 5 10 0 "male" "moderate" =
      .error "Age must be a positive integer." ∧
    mkCalorieCalculator 180 5 10 28 "unknown" "moderate" =
      .error "Invalid sex. Choose from: male, female." ∧
    mkCalorieCalculator 180 5 10 28 "male" "extreme" =
      .error "Invalid activity level. Choose from: sedentary, light, moderate, active, extra_active." :=
  ⟨C6_validation_order.1 (-1) 5 10 28 "male" "moderate" (by norm_num),
   C6_validation_order.2.1 180 (-2) 10 28 "male" "moderate" (by norm_num) (by norm_num),
   C6_validation_order.2.2.1 180 5 12 28 "male" "moderate" (by norm_num) (by norm_num)
     (Or.inr (by norm_num)),
   C6_validation_order.2.2.2.1 180 5 10 0 "male" "moderate" (by norm_num) (by norm_num)
     (by norm_num) (by norm_num) le_rfl,
   C6_validation_order.2.2.2.2.1 180 5 10 28 "unknown" "moderate" (by norm_num)
     (by norm_num) (by norm_num) (by norm_num) (by norm_num) (by decide),
   C6_validation_order.2.2.2.2.2.1 180 5 10 28 "male" "extreme" (by norm_num)
     (by norm_num) (by norm_num) (by norm_num) (by norm_num) (by decide)
     (by simp [activityMultiplier, _ACTIVITY_MULTIPLIERS, List.find?, pyLower, pyCharLower])⟩

/-- C7: sex and activity level are matched case-insensitively — two calls
whose sex arguments (and activity arguments) agree after lower-casing give
the same result, and "Male"/"MALE"/"male" all construct instances with the
same maintenance calories; sex "other" fails with the message listing the
choices male and female. -/
theorem C7_case_insensitive :
    (∀ (w : ℚ) (hf hi a : ℤ) (s₁ s₂ al₁ al₂ : String),
        pyLower s₁ = pyLower s₂ → pyLower al₁ = pyLower al₂ →
        mkCalorieCalculator w hf hi a s₁ al₁ = mkCalorieCalculator w hf hi a s₂ al₂) ∧
    (∃ c₁ c₂ c₃ : CalorieCalculator,
        mkCalorieCalculator 180 5 10 28 "Male" "moderate" = .ok c₁ ∧
        mkCalorieCalculator 180 5 10 28 "MALE" "moderate" = .ok c₂ ∧
        mkCalorieCalculator 180 5 10 28 "male" "moderate" = .ok c₃ ∧
        get_maintenance_calories c₁ = get_maintenance_calories c₂ ∧
        get_maintenance_calories c₂ = get_maintenance_calories c₃) ∧
    mkCalorieCalculator 180 5 10 28 "other" "moderate" =
      .error "Invalid sex. Choose from: male, female." := by
  have h1 : pyLower "Male" = "male" := by decide
  have h1b : pyLower "MALE" = "male" := by decide
  have h1c : pyLower "male" = "male" := by decide
  have h2 : pyLower "moderate" = "moderate" := by decide
  have h3 : activityMultiplier "moderate" = some 1.55 := by
    simp [activityMultiplier, _ACTIVITY_MULTIPLIERS, List.find?]
  refine ⟨fun w hf hi a s₁ s₂ al₁ al₂ hs hal => ?_, ?_, ?_⟩
  · simp only [mkCalorieCalculator, hs, hal]
  · have hok : ∀ t : String, pyLower t = "male" →
        mkCalorieCalculator 180 5 10 28 t "moderate" =
          .ok ⟨81.64656, 177.8, 28, "male", "moderate"⟩ := by
      intro t ht
      simp only [mkCalorieCalculator, ht, h2, h3]
      norm_num [_VALID_SEX_OPTIONS, _FEET_TO_INCHES_FACTOR,
        _POUNDS_TO_KG_FACTOR, _INCHES_TO_CM_FACTOR]
    exact ⟨_, _, _, hok "Male" h1, hok "MALE" h1b, hok "male" h1c, rfl, rfl⟩
  · have hother : pyLower "other" = "other" := by decide
    have hmem : ¬ ("other" : String) ∈ _VALID_SEX_OPTIONS := by decide
    simp only [mkCalorieCalculator, hother]
    rw [if_neg (by norm_num), if_neg (by norm_num),
      if_neg (by norm_num [_FEET_TO_INCHES_FACTOR]),
      if_neg (by norm_num), if_pos hmem]

/-- C7 witness: the case-insensitivity clause applied at concrete mixed-case
arguments. -/
theorem C7_case_insensitive_witness :
    mkCalorieCalculator 180 5 10 28 "Male" "MODERATE" =
      mkCalorieCalculator 180 5 10 28 "male" "moderate" :=
  C7_case_insensitive.1 180 5 10 28 "Male" "male" "MODERATE" "moderate"
    (by decide) (by decide)

/-- Helper: the field-resolution loop returns the first candidate that the
predicate `presentNonNull` accepts, paired with its value. -/
theorem resolveLoop_eq_find (record : List (String × PyVal)) (cs : List String) :
    resolveLoop record cs =
      (cs.find? (presentNonNull record)).map
        (fun f => (f, (lookupField record f).getD PyVal.none)) := by
  induction cs with
  | nil => rfl
  | cons f fs ih =>
    cases hl : lookupField record f with
    | none =>
      have hp : presentNonNull record f = false := by simp [presentNonNull, hl]
      rw [List.find?_cons_of_neg _ (by simp [hp])]
      simp [resolveLoop, hl, ih]
    | some v =>
      by_cases hv : v = PyVal.none
      · subst hv
        have hp : presentNonNull record f = false := by simp [presentNonNull, hl]
        rw [List.find?_cons_of_neg _ (by simp [hp])]
        simp [resolveLoop, hl, ih]
      · have hp : presentNonNull record f = true := by simp [presentNonNull, hl, hv]
        rw [List.find?_cons_of_pos _ hp]
        simp [resolveLoop, hl, hv]

/-- C8: for every record, resolve_instructions returns the first of the
candidate fields (in the fixed order cooking_instructions,
cookingInstructions, instructions, cooking_steps, recipe_steps, preparation)
that is present with a non-null value, paired with that field's name, and
signals no-instructions (`Option.none`) exactly when no candidate is present
with a non-null value. -/
theorem C8_resolve_first_match (record : List (String × PyVal)) :
    resolve_instructions record =
      (instruction_field_options.find? (presentNonNull record)).map
        (fun f => (f, (lookupField record f).getD PyVal.none)) ∧
    (resolve_instructions record = Option.none ↔
      ∀ f ∈ instruction_field_options, presentNonNull record f = false) := by
  have h := resolveLoop_eq_find record instruction_field_options
  refine ⟨h, ?_⟩
  show resolveLoop record instruction_field_options = Option.none ↔ _
  rw [h, Option.map_eq_none', List.find?_eq_none]
  simp [Bool.not_eq_true]

/-- C8 witness: resolution on a concrete record whose first candidate is
null and whose third candidate holds the instructions. -/
theorem C8_resolve_first_match_witness :
    resolve_instructions
        [("cooking_instructions", PyVal.none),
         ("instructions", PyVal.str "Mix. Bake."),
         ("preparation", PyVal.str "unused")] =
      Option.some ("instructions", PyVal.str "Mix. Bake.") :=
  (C8_resolve_first_match
      [("cooking_instructions", PyVal.none),
       ("instructions", PyVal.str "Mix. Bake."),
       ("preparation", PyVal.str "unused")]).1.trans (by decide)

end Dishly
